import Mathlib

/-!
Shallow embedding of `openandroidinstaller/views/addon_view.py`
(the `AddonsView` class): the addon selection controller that turns
file-picker result events into shared workflow state updates and a
display label, and the pick/confirm controls wired up in `build`.
-/

/-- A file reference delivered by the file picker: display name and
filesystem path (flet `FilePickerFile`). -/
structure FileRef where
  name : String
  path : String
deriving DecidableEq, Repr

/-- A flet `FilePickerResultEvent`: `files` is `none` when the user
cancelled the dialog, `some fs` when files were chosen. -/
structure FilePickerResultEvent where
  files : Option (List FileRef)
deriving DecidableEq, Repr

/-- Python truthiness of `e.files`: `None` and the empty list are both
falsy, any non-empty list is truthy. -/
def FilePickerResultEvent.filesTruthy (e : FilePickerResultEvent) : Bool :=
  match e.files with
  | none => false
  | some fs => !fs.isEmpty

/-- The list behind `e.files` (only used on the truthy branch). -/
def FilePickerResultEvent.filesList (e : FilePickerResultEvent) : List FileRef :=
  e.files.getD []

/-- The `AppState` fields this view touches: the cross-step
`addon_paths` record (shared workflow state). -/
structure AppState where
  addon_paths : List String
deriving DecidableEq, Repr

/-- Python `s.split(":")[0]`: the longest initial segment of `s` that
contains no colon (`split` with a separator never returns an empty
list, and its first element is everything before the first separator). -/
def splitColonHead (s : String) : String :=
  String.mk (s.data.takeWhile (fun c => c != ':'))

/-- Python `", ".join(map(lambda f: f.name, files))`. -/
def joinNames (fs : List FileRef) : String :=
  String.intercalate ", " (fs.map (·.name))

/-- The mutable attributes of `AddonsView` that `pick_addons_result`
reads or writes: the shared `AppState`, the controller's own
`self.addon_paths` (unset before the first successful selection), and
the display label `self.selected_addons.value`. -/
structure AddonsView where
  state : AppState
  addon_paths : Option (List String)
  selected_addons_value : String
deriving DecidableEq, Repr

/-- `AddonsView.build` as far as the modelled attributes go: the label
starts as `"Selected addons: "`, `self.addon_paths` is not yet set, and
the shared state is left as constructed. -/
def AddonsView.build (state : AppState) : AddonsView :=
  { state := state
    addon_paths := none
    selected_addons_value := "Selected addons: " }

/-- `AddonsView.pick_addons_result`:
`path = ", ".join(map(lambda f: f.name, e.files)) if e.files else "Cancelled!"`;
the label becomes `self.selected_addons.value.split(":")[0] + ": " + path`;
and only when `e.files` is truthy are `self.addon_paths` and
`self.state.addon_paths` written (with the files' paths, in order). -/
def AddonsView.pick_addons_result (v : AddonsView) (e : FilePickerResultEvent) :
    AddonsView :=
  let path : String :=
    if e.filesTruthy then joinNames e.filesList else "Cancelled!"
  let newLabel : String := splitColonHead v.selected_addons_value ++ ": " ++ path
  if e.filesTruthy then
    let paths : List String := e.filesList.map (·.path)
    { state := { addon_paths := paths }
      addon_paths := some paths
      selected_addons_value := newLabel }
  else
    { v with selected_addons_value := newLabel }

/-- The arguments of the `pick_files` call made by the pick button's
`on_click` handler in `AddonsView.build`. -/
structure PickFilesCall where
  allow_multiple : Bool
  file_type : String
  allowed_extensions : List String
deriving DecidableEq, Repr

/-- The pick-trigger `on_click` in `AddonsView.build`:
`self.pick_addons_dialog.pick_files(allow_multiple=True, file_type="custom",
allowed_extensions=["zip"])`. -/
def pick_addons_on_click : PickFilesCall :=
  { allow_multiple := true
    file_type := "custom"
    allowed_extensions := ["zip"] }

/-- Modelled from the spec: `widgets.confirm_button` (not part of the
given sources) builds a confirm control that, when activated, invokes
the supplied `on_confirm` callback unconditionally, with no gating on
the selection state. We model a callback as a state transformer and
activation as applying it once. -/
def confirm_button {σ : Type} (on_confirm : σ → σ) : σ → σ :=
  on_confirm

/-- Activating the confirm control of a built view: the view's addon
selection state is not consulted; the callback runs once. -/
def activate_confirm {σ : Type} (v : AddonsView) (on_confirm : σ → σ)
    (s : σ) : σ :=
  confirm_button on_confirm s

-- Sanity examples (spec scenarios A and B, evaluated on the embedding).
example :
    ((AddonsView.build ⟨[]⟩).pick_addons_result
      ⟨some [⟨"MindTheGapps.zip", "/tmp/a.zip"⟩]⟩).selected_addons_value
      = "Selected addons: MindTheGapps.zip" := by decide

example :
    ((AddonsView.build ⟨[]⟩).pick_addons_result
      ⟨some [⟨"a.zip", "/x/a.zip"⟩, ⟨"b.zip", "/x/b.zip"⟩]⟩).state.addon_paths
      = ["/x/a.zip", "/x/b.zip"] := by decide

/-! ## Helper lemmas -/

/-- `takeWhile` of a `takeWhile` result followed by a failing element
gives back the original `takeWhile` result. -/
lemma takeWhile_takeWhile_append (p : Char → Bool) (l r : List Char) (c : Char)
    (hc : p c = false) :
    (l.takeWhile p ++ c :: r).takeWhile p = l.takeWhile p := by
  induction l with
  | nil => simp [List.takeWhile, hc]
  | cons x xs ih =>
      cases hx : p x with
      | false => simp [List.takeWhile, hx, hc]
      | true => simp [List.takeWhile, hx, ih]

/-- Taking the text before the first colon of `head ++ ": " ++ t`, where
`head` is itself a before-first-colon text, gives back `head`. -/
lemma splitColonHead_append (s t : String) :
    splitColonHead (splitColonHead s ++ ": " ++ t) = splitColonHead s := by
  apply String.ext
  show ((splitColonHead s ++ ": " ++ t).data).takeWhile (fun c => c != ':')
      = s.data.takeWhile (fun c => c != ':')
  rw [String.data_append, String.data_append]
  have hd : (splitColonHead s).data = s.data.takeWhile (fun c => c != ':') := rfl
  rw [hd]
  have hsplit :
      (s.data.takeWhile (fun c => c != ':') ++ (": " : String).data) ++ t.data
        = s.data.takeWhile (fun c => c != ':') ++ (':' :: (' ' :: t.data)) := by
    rw [List.append_assoc]
    rfl
  rw [hsplit]
  exact takeWhile_takeWhile_append (fun c => c != ':')
    s.data (' ' :: t.data) ':' (by decide)

/-- `s ++ ": " ++ "Cancelled!"` is the single literal suffix form. -/
lemma append_cancelled (s : String) :
    s ++ ": " ++ "Cancelled!" = s ++ ": Cancelled!" := by
  apply String.ext
  rw [String.data_append, String.data_append, String.data_append,
    List.append_assoc]
  rfl

/-- The label written by `pick_addons_result`, in both branches. -/
lemma selected_addons_value_after (v : AddonsView) (e : FilePickerResultEvent) :
    (v.pick_addons_result e).selected_addons_value
      = splitColonHead v.selected_addons_value ++ ": " ++
          (if e.filesTruthy then joinNames e.filesList else "Cancelled!") := by
  cases h : e.filesTruthy <;>
    simp [AddonsView.pick_addons_result, h]

/-- One handler step never changes the text before the first colon. -/
lemma splitColonHead_after (v : AddonsView) (e : FilePickerResultEvent) :
    splitColonHead ((v.pick_addons_result e).selected_addons_value)
      = splitColonHead v.selected_addons_value := by
  rw [selected_addons_value_after]
  exact splitColonHead_append _ _

/-- `e.files` is falsy exactly on true cancellation or the empty list. -/
lemma filesTruthy_eq_false (e : FilePickerResultEvent)
    (h : e.files = none ∨ e.files = some []) : e.filesTruthy = false := by
  rcases h with h | h <;> simp [FilePickerResultEvent.filesTruthy, h]

/-- On a falsy `e.files` the handler only rewrites the label: the shared
state and the controller's recorded paths are untouched. -/
lemma pick_falsy_state (v : AddonsView) (e : FilePickerResultEvent)
    (h : e.filesTruthy = false) :
    (v.pick_addons_result e).state = v.state ∧
    (v.pick_addons_result e).addon_paths = v.addon_paths := by
  simp [AddonsView.pick_addons_result, h]

/-- On a falsy `e.files` the label becomes the before-colon text of the
old label followed by the "Cancelled" marker. -/
lemma pick_falsy_label (v : AddonsView) (e : FilePickerResultEvent)
    (h : e.filesTruthy = false) :
    (v.pick_addons_result e).selected_addons_value
      = splitColonHead v.selected_addons_value ++ ": Cancelled!" := by
  rw [selected_addons_value_after, h]
  exact append_cancelled _

/-- On a non-empty selection the handler writes the files' paths, in
order, to both the shared state and the controller's recorded list. -/
lemma pick_cons_state (v : AddonsView) (a : FileRef) (as : List FileRef) :
    (v.pick_addons_result ⟨some (a :: as)⟩).state.addon_paths
        = (a :: as).map (fun f => f.path) ∧
    (v.pick_addons_result ⟨some (a :: as)⟩).addon_paths
        = some ((a :: as).map (fun f => f.path)) := by
  simp [AddonsView.pick_addons_result, FilePickerResultEvent.filesTruthy,
    FilePickerResultEvent.filesList]

/-! ## Claim theorems -/

/-- Claim C1: for every non-empty list of files, after the handler
processes a successful (non-cancelled) result, the shared workflow
state's `addon_paths` equals exactly the list of the files' paths in
input order, and the controller's own recorded paths list and the
shared state's `addon_paths` are identical. -/
theorem C1_selected_writes_paths (v : AddonsView) (fs : List FileRef)
    (h : fs ≠ []) :
    (v.pick_addons_result ⟨some fs⟩).state.addon_paths
        = fs.map (fun f => f.path) ∧
    (v.pick_addons_result ⟨some fs⟩).addon_paths
        = some ((v.pick_addons_result ⟨some fs⟩).state.addon_paths) := by
  obtain ⟨a, as, rfl⟩ := List.exists_cons_of_ne_nil h
  obtain ⟨h1, h2⟩ := pick_cons_state v a as
  exact ⟨h1, by rw [h1, h2]⟩

/-- Witness for C1 at a concrete non-empty selection. -/
theorem C1_selected_writes_paths_witness :
    ((AddonsView.build ⟨[]⟩).pick_addons_result
        ⟨some [⟨"MindTheGapps.zip", "/tmp/a.zip"⟩]⟩).state.addon_paths
        = [(⟨"MindTheGapps.zip", "/tmp/a.zip"⟩ : FileRef)].map (fun f => f.path) ∧
    ((AddonsView.build ⟨[]⟩).pick_addons_result
        ⟨some [⟨"MindTheGapps.zip", "/tmp/a.zip"⟩]⟩).addon_paths
        = some (((AddonsView.build ⟨[]⟩).pick_addons_result
            ⟨some [⟨"MindTheGapps.zip", "/tmp/a.zip"⟩]⟩).state.addon_paths) :=
  C1_selected_writes_paths (AddonsView.build ⟨[]⟩)
    [⟨"MindTheGapps.zip", "/tmp/a.zip"⟩] (by decide)

/-- Claim C2: a cancelled result (`files = None`) or a result with the
empty file list leaves the shared state (and the controller's recorded
paths) unchanged: no write happens on that branch, so the last
successful selection persists. -/
theorem C2_falsy_noop_on_state (v : AddonsView) (e : FilePickerResultEvent)
    (h : e.files = none ∨ e.files = some []) :
    (v.pick_addons_result e).state = v.state ∧
    (v.pick_addons_result e).addon_paths = v.addon_paths :=
  pick_falsy_state v e (filesTruthy_eq_false e h)

/-- Witness for C2: cancellation after a prior selection keeps the
prior paths. -/
theorem C2_falsy_noop_on_state_witness :
    ((⟨⟨["/tmp/a.zip"]⟩, some ["/tmp/a.zip"], "Selected addons: MindTheGapps.zip"⟩
        : AddonsView).pick_addons_result ⟨none⟩).state
      = (⟨["/tmp/a.zip"]⟩ : AppState) ∧
    ((⟨⟨["/tmp/a.zip"]⟩, some ["/tmp/a.zip"], "Selected addons: MindTheGapps.zip"⟩
        : AddonsView).pick_addons_result ⟨none⟩).addon_paths
      = some ["/tmp/a.zip"] :=
  C2_falsy_noop_on_state
    ⟨⟨["/tmp/a.zip"]⟩, some ["/tmp/a.zip"], "Selected addons: MindTheGapps.zip"⟩
    ⟨none⟩ (Or.inl rfl)

/-- Claim C3 counterexample: a successful result that carries the
empty file list IS labeled with the "Cancelled" marker, because the
handler tests Python truthiness of `e.files`, which does not
distinguish the empty list from `None`. -/
theorem C3_counterexample_empty_list_labeled_cancelled :
    ((AddonsView.build ⟨[]⟩).pick_addons_result ⟨some []⟩).selected_addons_value
      = "Selected addons: Cancelled!" := by decide

/-- Claim C3 as amended: every falsy result — a true cancellation or a
successful result with the empty file list — produces the "Cancelled"
display label; the two cases are not distinguished. -/
theorem C3_falsy_labeled_cancelled (v : AddonsView) (e : FilePickerResultEvent)
    (h : e.files = none ∨ e.files = some []) :
    (v.pick_addons_result e).selected_addons_value
      = splitColonHead v.selected_addons_value ++ ": Cancelled!" :=
  pick_falsy_label v e (filesTruthy_eq_false e h)

/-- Witness for the amended C3 at the empty-list input. -/
theorem C3_falsy_labeled_cancelled_witness :
    ((AddonsView.build ⟨[]⟩).pick_addons_result ⟨some []⟩).selected_addons_value
      = splitColonHead (AddonsView.build ⟨[]⟩).selected_addons_value
          ++ ": Cancelled!" :=
  C3_falsy_labeled_cancelled (AddonsView.build ⟨[]⟩) ⟨some []⟩ (Or.inr rfl)

/-- Claim C4 counterexample: at the empty file list, processing the
successful selection does not set the label to the joined (empty) name
string and does not write the (empty) path list to the shared state:
the label becomes the "Cancelled" marker and the prior state persists. -/
theorem C4_counterexample_empty_list :
    ¬ (((⟨⟨["/p/old.zip"]⟩, none, "Selected addons: "⟩
          : AddonsView).pick_addons_result ⟨some []⟩).selected_addons_value
        = splitColonHead
            (⟨⟨["/p/old.zip"]⟩, none, "Selected addons: "⟩
              : AddonsView).selected_addons_value
            ++ ": " ++ joinNames [] ∧
       ((⟨⟨["/p/old.zip"]⟩, none, "Selected addons: "⟩
          : AddonsView).pick_addons_result ⟨some []⟩).state.addon_paths
        = ([] : List FileRef).map (fun f => f.path)) := by decide

/-- Claim C4 as amended: for every NON-EMPTY list of files, a
successful selection sets the label to the label's existing text
before the first colon, then ": ", then the files' display names
joined by ", ", while the files' paths (not names) are written to the
shared state. -/
theorem C4_label_names_state_paths (v : AddonsView) (fs : List FileRef)
    (h : fs ≠ []) :
    (v.pick_addons_result ⟨some fs⟩).selected_addons_value
        = splitColonHead v.selected_addons_value ++ ": " ++ joinNames fs ∧
    (v.pick_addons_result ⟨some fs⟩).state.addon_paths
        = fs.map (fun f => f.path) := by
  obtain ⟨a, as, rfl⟩ := List.exists_cons_of_ne_nil h
  refine ⟨?_, (pick_cons_state v a as).1⟩
  rw [selected_addons_value_after]
  have ht : FilePickerResultEvent.filesTruthy ⟨some (a :: as)⟩ = true := rfl
  rw [ht]
  rfl

/-- Witness for the amended C4 on spec scenario B. -/
theorem C4_label_names_state_paths_witness :
    ((AddonsView.build ⟨[]⟩).pick_addons_result
        ⟨some [⟨"a.zip", "/x/a.zip"⟩, ⟨"b.zip", "/x/b.zip"⟩]⟩).selected_addons_value
        = splitColonHead (AddonsView.build ⟨[]⟩).selected_addons_value ++ ": " ++
            joinNames [⟨"a.zip", "/x/a.zip"⟩, ⟨"b.zip", "/x/b.zip"⟩] ∧
    ((AddonsView.build ⟨[]⟩).pick_addons_result
        ⟨some [⟨"a.zip", "/x/a.zip"⟩, ⟨"b.zip", "/x/b.zip"⟩]⟩).state.addon_paths
        = [(⟨"a.zip", "/x/a.zip"⟩ : FileRef), ⟨"b.zip", "/x/b.zip"⟩].map
            (fun f => f.path) :=
  C4_label_names_state_paths (AddonsView.build ⟨[]⟩)
    [⟨"a.zip", "/x/a.zip"⟩, ⟨"b.zip", "/x/b.zip"⟩] (by decide)

/-- Claim C5: a cancellation processed after a prior successful
selection sets the label to the preserved before-colon text (derived
from the existing label, not hardcoded) followed by ": Cancelled!",
while the shared state keeps the prior selection's paths. -/
theorem C5_cancel_after_selection (v : AddonsView) (fs : List FileRef)
    (h : fs ≠ []) :
    ((v.pick_addons_result ⟨some fs⟩).pick_addons_result ⟨none⟩).selected_addons_value
        = splitColonHead v.selected_addons_value ++ ": Cancelled!" ∧
    ((v.pick_addons_result ⟨some fs⟩).pick_addons_result ⟨none⟩).state.addon_paths
        = fs.map (fun f => f.path) := by
  obtain ⟨a, as, rfl⟩ := List.exists_cons_of_ne_nil h
  constructor
  · rw [pick_falsy_label _ ⟨none⟩ rfl, splitColonHead_after]
  · rw [(pick_falsy_state _ ⟨none⟩ rfl).1]
    exact (pick_cons_state v a as).1

/-- Witness for C5 on spec scenario C (cancel after scenario A). -/
theorem C5_cancel_after_selection_witness :
    (((AddonsView.build ⟨[]⟩).pick_addons_result
          ⟨some [⟨"MindTheGapps.zip", "/tmp/a.zip"⟩]⟩).pick_addons_result
        ⟨none⟩).selected_addons_value
        = splitColonHead (AddonsView.build ⟨[]⟩).selected_addons_value
            ++ ": Cancelled!" ∧
    (((AddonsView.build ⟨[]⟩).pick_addons_result
          ⟨some [⟨"MindTheGapps.zip", "/tmp/a.zip"⟩]⟩).pick_addons_result
        ⟨none⟩).state.addon_paths
        = [(⟨"MindTheGapps.zip", "/tmp/a.zip"⟩ : FileRef)].map (fun f => f.path) :=
  C5_cancel_after_selection (AddonsView.build ⟨[]⟩)
    [⟨"MindTheGapps.zip", "/tmp/a.zip"⟩] (by decide)

/-- Claim C6: across any sequence of selection and cancellation events
processed by the handler, the display label's text before the first
colon is invariant. -/
theorem C6_label_head_invariant (v : AddonsView)
    (es : List FilePickerResultEvent) :
    splitColonHead ((es.foldl AddonsView.pick_addons_result v).selected_addons_value)
      = splitColonHead v.selected_addons_value := by
  induction es generalizing v with
  | nil => rfl
  | cons e es ih => rw [List.foldl_cons, ih, splitColonHead_after]

/-- Claim C7: after two successive successful selections with different
non-empty file lists, the shared state holds only the second list's
paths — the write replaces, it does not accumulate. -/
theorem C7_last_write_wins (v : AddonsView) (fs1 fs2 : List FileRef)
    (h1 : fs1 ≠ []) (h2 : fs2 ≠ []) (hne : fs1 ≠ fs2) :
    ((v.pick_addons_result ⟨some fs1⟩).pick_addons_result
        ⟨some fs2⟩).state.addon_paths = fs2.map (fun f => f.path) ∧
    ((v.pick_addons_result ⟨some fs1⟩).pick_addons_result
        ⟨some fs2⟩).addon_paths = some (fs2.map (fun f => f.path)) := by
  obtain ⟨b, bs, rfl⟩ := List.exists_cons_of_ne_nil h2
  exact pick_cons_state _ b bs

/-- Witness for C7 with two different concrete selections. -/
theorem C7_last_write_wins_witness :
    (((AddonsView.build ⟨[]⟩).pick_addons_result
          ⟨some [⟨"a.zip", "/x/a.zip"⟩]⟩).pick_addons_result
        ⟨some [⟨"b.zip", "/x/b.zip"⟩]⟩).state.addon_paths
        = [(⟨"b.zip", "/x/b.zip"⟩ : FileRef)].map (fun f => f.path) ∧
    (((AddonsView.build ⟨[]⟩).pick_addons_result
          ⟨some [⟨"a.zip", "/x/a.zip"⟩]⟩).pick_addons_result
        ⟨some [⟨"b.zip", "/x/b.zip"⟩]⟩).addon_paths
        = some ([(⟨"b.zip", "/x/b.zip"⟩ : FileRef)].map (fun f => f.path)) :=
  C7_last_write_wins (AddonsView.build ⟨[]⟩)
    [⟨"a.zip", "/x/a.zip"⟩] [⟨"b.zip", "/x/b.zip"⟩]
    (by decide) (by decide) (by decide)

/-- Claim C8: activating the confirm control applies the externally
supplied callback exactly once, for every view (so also with an
empty/unset addon selection state), and is total (does not throw):
with a counting callback the count rises by exactly one. -/
theorem C8_confirm_unconditional (v : AddonsView) :
    (∀ (σ : Type) (on_confirm : σ → σ) (s : σ),
        activate_confirm v on_confirm s = on_confirm s) ∧
    (∀ calls : Nat, activate_confirm v Nat.succ calls = calls + 1) :=
  ⟨fun _ _ _ => rfl, fun _ => rfl⟩

/-- Claim C9: the pick-trigger action always calls `pick_files` with
multiple selection allowed and the allowed extensions exactly
the singleton "zip". -/
theorem C9_pick_files_config :
    pick_addons_on_click.allow_multiple = true ∧
    pick_addons_on_click.allowed_extensions = ["zip"] ∧
    (∀ ext : String,
        ext ∈ pick_addons_on_click.allowed_extensions ↔ ext = "zip") := by
  refine ⟨rfl, rfl, fun ext => ?_⟩
  simp [pick_addons_on_click]

/-- Claim C10: right after `build` the display label is exactly
"Selected addons: ", and hence the first event processed — including an
immediate cancellation — yields a label beginning with
"Selected addons: ". -/
theorem C10_initial_label (s : AppState) :
    (AddonsView.build s).selected_addons_value = "Selected addons: " ∧
    ∀ e : FilePickerResultEvent, ∃ rest : List Char,
      (((AddonsView.build s).pick_addons_result e).selected_addons_value).data
        = ("Selected addons: " : String).data ++ rest := by
  refine ⟨rfl, fun e => ?_⟩
  refine ⟨(if e.filesTruthy then joinNames e.filesList else "Cancelled!").data, ?_⟩
  rw [selected_addons_value_after]
  rw [String.data_append, String.data_append, List.append_assoc]
  rfl
